import Mathlib

/-!
Verification of the static code-analysis and scoring engine of the OctoPush
repository (backend/services/codeAnalyzer.js and the score recomputation in
backend/models/CodeReview.js).

Source text is modelled as `String` / `List Char`.  JavaScript string and
regex primitives used by the analyzer are embedded as executable Lean
functions on character lists; each definition carries the semantics of the
corresponding JavaScript operation, including its quirks (word boundaries,
empty regex matches, `indexOf` returning the first occurrence).
-/

/-- JavaScript word character, as used by the regex `\b` boundary: `[A-Za-z0-9_]`. -/
def isWordChar (c : Char) : Bool := c.isAlphanum || c == '_'

/-- `startsWithList s pat`: `pat` occurs at the beginning of `s`. -/
def startsWithList : List Char → List Char → Bool
  | _, [] => true
  | [], _ :: _ => false
  | c :: cs, d :: ds => c == d && startsWithList cs ds

/-- JavaScript `s.includes(sub)` on character lists. -/
def strIncludes (s sub : List Char) : Bool :=
  match s with
  | [] => sub.isEmpty
  | _ :: rest => startsWithList s sub || strIncludes rest sub

/-- JavaScript `s.indexOf(sub)`: index of the first occurrence, or `-1`. -/
def idxOfSub (s sub : List Char) : Int :=
  match s with
  | [] => if sub.isEmpty then 0 else -1
  | _ :: rest =>
    if startsWithList s sub then 0
    else
      let r := idxOfSub rest sub
      if r = -1 then -1 else r + 1

/-- JavaScript `code.split('\n')` on character lists. -/
def splitLines : List Char → List (List Char)
  | [] => [[]]
  | c :: rest =>
    if c == '\n' then [] :: splitLines rest
    else
      match splitLines rest with
      | [] => [[c]]
      | l :: ls => (c :: l) :: ls

/-- JavaScript `s.trim()`: strip leading and trailing whitespace. -/
def trimChars (s : List Char) : List Char :=
  ((s.dropWhile Char.isWhitespace).reverse.dropWhile Char.isWhitespace).reverse

/-- JavaScript `s.trimEnd()`: strip trailing whitespace. -/
def trimEndChars (s : List Char) : List Char :=
  (s.reverse.dropWhile Char.isWhitespace).reverse

/-- Number of leading space characters of a line. -/
def leadingSpaces (s : List Char) : Nat := (s.takeWhile (· == ' ')).length

/-- JavaScript `s.replace(pat, repl)` with a plain-string pattern:
replace the first occurrence only. -/
def replaceFirst (s pat repl : List Char) : List Char :=
  match s with
  | [] => if pat.isEmpty then repl else []
  | c :: rest =>
    if startsWithList s pat then repl ++ List.drop pat.length s
    else c :: replaceFirst rest pat repl

/-! ## Data model (the shapes produced by codeAnalyzer.js) -/

/-- One entry of an issue's `resources` array. -/
structure Resource where
  title : String
  url : String
  kind : String
deriving DecidableEq

/-- The `codeSnippet` pair of an issue. -/
structure Snippet where
  original : String
  suggested : String
deriving DecidableEq

/-- One detected problem.  `severity`, `category` and `impact` are the raw
strings the JavaScript code stores in these fields. -/
structure Issue where
  line : Nat
  column : Int
  severity : String
  category : String
  title : String
  description : String
  explanation : String
  suggestedFix : String
  resources : List Resource
  codeSnippet : Snippet
  impact : String
deriving DecidableEq

/-- The `metrics` record of an `AnalysisResult`. -/
structure Metrics where
  linesOfCode : Nat
  complexity : Nat
  maintainabilityIndex : ℚ
  technicalDebt : ℚ
  overallScore : Int
deriving DecidableEq

/-- The `analysis` record (strengths / improvements / skill level). -/
structure Assessment where
  strengths : List String
  areasForImprovement : List String
  skillLevel : String
  nextSteps : List String
deriving DecidableEq

/-- The complete output of one `analyzeCode` call. -/
structure AnalysisResult where
  issues : List Issue
  metrics : Metrics
  analysis : Assessment
deriving DecidableEq

/-! ## Metric primitives (codeAnalyzer.js lines 472-501) -/

/-- Boundary test for the `\b` before a keyword occurrence: the previous
character (if any) must not be a word character (the keyword itself starts
with a word character). -/
def boundaryBefore (prev : Option Char) : Bool :=
  match prev with
  | none => true
  | some c => !isWordChar c

/-- Boundary test for the `\b` after a keyword occurrence: the next
character (if any) must not be a word character. -/
def boundaryAfter (s : List Char) : Bool :=
  match s with
  | [] => true
  | c :: _ => !isWordChar c

/-- The regex `\bkw\b` matches at the current position of `s`, where `prev`
is the character just before that position. -/
def wordMatchAt (kw : List Char) (prev : Option Char) (s : List Char) : Bool :=
  startsWithList s kw && boundaryBefore prev && boundaryAfter (List.drop kw.length s)

/-- Count the matches of `\bkw\b` over the rest of the string.  Matches of a
word keyword cannot overlap (every character of the keyword is a word
character while a boundary needs a non-word neighbour), so counting at every
position equals the global regex match count. -/
def countWordAux (kw : List Char) (prev : Option Char) : List Char → Nat
  | [] => 0
  | c :: rest =>
    (if wordMatchAt kw prev (c :: rest) then 1 else 0) + countWordAux kw (some c) rest

/-- `code.match(new RegExp('\\b' + kw + '\\b', 'g')).length` for an
alphabetic keyword `kw` (0 when `match` returns `null`). -/
def countWordOcc (kw : String) (code : String) : Nat :=
  countWordAux kw.data none code.data

/-- The regex `\b&&\b` matches at the current position: `&` is not a word
character, so the leading `\b` requires a word character just before the
`&&` and the trailing `\b` requires a word character just after it. -/
def ampMatchAt (prev : Option Char) (s : List Char) : Bool :=
  match prev, s with
  | some p, '&' :: '&' :: c :: _ => isWordChar p && isWordChar c
  | _, _ => false

/-- Count the matches of `\b&&\b` over the rest of the string (matches
cannot overlap, as a valid match needs word characters on both sides). -/
def countAmpAux (prev : Option Char) : List Char → Nat
  | [] => 0
  | c :: rest =>
    (if ampMatchAt prev (c :: rest) then 1 else 0) + countAmpAux (some c) rest

/-- `code.match(/\b&&\b/g).length` (0 when `match` returns `null`). -/
def countAmpOcc (code : String) : Nat := countAmpAux none code.data

/-- `code.match(/\b||\b/g).length`.  The pattern built for the keyword `||`
is the alternation of `\b`, the empty pattern and `\b` (the pipes are regex
alternation operators, not literals).  The empty alternative matches at
every index, so the global match produces exactly `code.length + 1` empty
matches and is never `null`. -/
def countPipeMatches (code : String) : Nat := code.length + 1

/-- codeAnalyzer.js `countLinesOfCode`: number of lines of `code.split('\n')`
whose trimmed content is non-empty. -/
def countLinesOfCode (code : String) : Nat :=
  ((splitLines code.data).filter (fun line => (trimChars line).length > 0)).length

/-- The alphabetic entries of the `complexityKeywords` table; `&&` and `||`
are handled by `countAmpOcc` and `countPipeMatches`. -/
def complexityKeywords : List String :=
  ["if", "else", "for", "while", "switch", "case", "catch"]

/-- codeAnalyzer.js `calculateComplexity`: base 1 plus the global match
count of `\bkw\b` for every keyword (including the `&&` and `||` entries of
the table), capped at 20.  The `language` parameter is unused in the
source. -/
def calculateComplexity (code : String) (language : String) : Nat :=
  min (1 + ((complexityKeywords.map (fun kw => countWordOcc kw code)).sum
      + countAmpOcc code + countPipeMatches code)) 20

/-- codeAnalyzer.js `calculateMaintainabilityIndex`:
`Math.max(0, Math.min(100, 100 - complexity*2 - loc*0.1))`. -/
def calculateMaintainabilityIndex (code : String) (language : String) : ℚ :=
  let loc : ℚ := countLinesOfCode code
  let complexity : ℚ := calculateComplexity code language
  max 0 (min 100 (100 - complexity * 2 - loc * (1 / 10)))

/-! ## Scoring (codeAnalyzer.js lines 524-545, CodeReview.js lines 152-174) -/

/-- The `switch (issue.severity)` of codeAnalyzer.js `calculateOverallScore`:
points subtracted per issue (0 for a severity outside the four cases). -/
def severityPenalty (severity : String) : Int :=
  if severity = "error" then 20
  else if severity = "warning" then 10
  else if severity = "info" then 5
  else if severity = "suggestion" then 2
  else 0

/-- codeAnalyzer.js `calculateOverallScore`: start at 100, subtract the
penalty of each issue, return `Math.max(0, score)`. -/
def calculateOverallScore (issues : List Issue) : Int :=
  max 0 (issues.foldl (fun score issue => score - severityPenalty issue.severity) 100)

namespace CodeReview

/-- The `switch (issue.severity)` of CodeReview.js `calculateOverallScore`:
the error penalty is 15 here, not 20. -/
def severityPenalty (severity : String) : Int :=
  if severity = "error" then 15
  else if severity = "warning" then 10
  else if severity = "info" then 5
  else if severity = "suggestion" then 2
  else 0

/-- CodeReview.js method `calculateOverallScore`: returns 100 for an empty
issue list, else starts at 100, subtracts the (15/10/5/2) penalty of each
issue and clamps at 0. -/
def calculateOverallScore (issues : List Issue) : Int :=
  if issues.length = 0 then 100
  else max 0 (issues.foldl (fun score issue => score - severityPenalty issue.severity) 100)

end CodeReview

/-! ## Language analyzers (codeAnalyzer.js lines 88-470) -/

/-- The synthetic issue pushed by the `catch` of `analyzeJavaScript`
(codeAnalyzer.js lines 220-232). -/
def jsSyntaxErrorIssue (code : String) : Issue where
  line := 1
  column := 1
  severity := "error"
  category := "syntax"
  title := "JavaScript Syntax Error"
  description := "Unable to parse JavaScript code"
  explanation := "The JavaScript code contains syntax errors that prevent analysis."
  suggestedFix := "Check for missing brackets, semicolons, or other syntax issues"
  resources := []
  codeSnippet := { original := String.mk (code.data.take 50), suggested := "" }
  impact := "high"

/-- `analyzeJavaScript`: the parse and AST walk are done by the external
babel library; `parseResult` models its outcome — `some issues` is the
issue list produced by the AST visitors on a successful parse (after which
the function assigns `analysis.issues = issues`), `none` is a thrown parse
error, caught at codeAnalyzer.js line 217, where the single synthetic
syntax issue is pushed onto the (still empty) issue list. -/
def analyzeJavaScript (code : String) (parseResult : Option (List Issue)) : List Issue :=
  match parseResult with
  | some issues => issues
  | none => [jsSyntaxErrorIssue code]

/-- The indentation condition of `analyzePython` (codeAnalyzer.js line 246):
`line.length > 0 && line[0] === ' ' && line.indexOf(' ') % 4 !== 0`.
JavaScript `%` truncates toward zero, hence `Int.tmod`. -/
def pythonIndentCondition (line : List Char) : Bool :=
  line.length > 0 && line.head? == some ' ' && Int.tmod (idxOfSub line [' ']) 4 != 0

/-- The replacement `line.replace(/^ +/, m => ' '.repeat(Math.ceil(m.length / 4) * 4))`
used in the indentation issue's suggested snippet. -/
def pyIndentSuggested (line : List Char) : List Char :=
  let n := leadingSpaces line
  if n = 0 then line
  else List.replicate (((n + 3) / 4) * 4) ' ' ++ line.drop n

/-- The 'Inconsistent indentation' issue of `analyzePython`. -/
def pythonIndentIssue (line : List Char) (lineNum : Nat) : Issue where
  line := lineNum
  column := 1
  severity := "warning"
  category := "style"
  title := "Inconsistent indentation"
  description := "Python recommends 4 spaces for indentation"
  explanation := "PEP 8 recommends using 4 spaces per indentation level for better readability."
  suggestedFix := "Use 4 spaces for each indentation level"
  resources := [{ title := "PEP 8 - Style Guide", url := "https://pep8.org/", kind := "documentation" }]
  codeSnippet := { original := String.mk line, suggested := String.mk (pyIndentSuggested line) }
  impact := "low"

/-- The 'Line too long' issue of `analyzePython`. -/
def pythonLongLineIssue (line : List Char) (lineNum : Nat) : Issue where
  line := lineNum
  column := 80
  severity := "info"
  category := "style"
  title := "Line too long"
  description := "Line is " ++ Nat.repr line.length ++ " characters long (max recommended: 79)"
  explanation := "Long lines can be harder to read. Consider breaking them into multiple lines."
  suggestedFix := "Break long line into multiple lines"
  resources := []
  codeSnippet := { original := String.mk (line.drop 70), suggested := "\\n    # continuation" }
  impact := "low"

/-- The 'Print statement in code' issue of `analyzePython`. -/
def pythonPrintIssue (line : List Char) (lineNum : Nat) : Issue :=
  let trimmedLine := trimChars line
  { line := lineNum
    column := idxOfSub line "print(".data + 1
    severity := "suggestion"
    category := "best-practice"
    title := "Print statement in code"
    description := "Consider using logging instead of print statements"
    explanation := "For production code, use the logging module instead of print statements for better control over output."
    suggestedFix := "Replace with logging.info() or similar"
    resources := [{ title := "Python Logging HOWTO",
                    url := "https://docs.python.org/3/howto/logging.html", kind := "tutorial" }]
    codeSnippet := { original := String.mk trimmedLine,
                     suggested := String.mk (replaceFirst trimmedLine "print(".data "logging.info(".data) }
    impact := "low" }

/-- The issues `analyzePython` pushes for one line. -/
def pythonLineIssues (line : List Char) (lineNum : Nat) : List Issue :=
  (if pythonIndentCondition line then [pythonIndentIssue line lineNum] else [])
  ++ (if line.length > 79 then [pythonLongLineIssue line lineNum] else [])
  ++ (if strIncludes (trimChars line) "print(".data then [pythonPrintIssue line lineNum] else [])

/-- codeAnalyzer.js `analyzePython`: line-oriented checks over
`code.split('\n')`; the final `analysis.issues = issues` yields this list. -/
def analyzePython (code : String) : List Issue :=
  ((splitLines code.data).enum.map (fun p => pythonLineIssues p.2 (p.1 + 1))).flatten

/-- The 'System.out.println in code' issue of `analyzeJava`. -/
def javaPrintlnIssue (line : List Char) (lineNum : Nat) : Issue where
  line := lineNum
  column := idxOfSub line "System.out.println".data + 1
  severity := "suggestion"
  category := "best-practice"
  title := "System.out.println in code"
  description := "Consider using a logging framework instead"
  explanation := "For production code, use logging frameworks like Log4j or SLF4J instead of System.out.println."
  suggestedFix := "Replace with proper logging"
  resources := [{ title := "Java Logging Best Practices",
                  url := "https://www.baeldung.com/java-logging-intro", kind := "tutorial" }]
  codeSnippet := { original := String.mk (trimChars line), suggested := "logger.info(\"message\");" }
  impact := "low"

/-- `trimmedLine.match(/^(if|for|while|else)\s*\([^)]*\)\s*[^{]/)` of
`analyzeJava`, unfolded: an alternation keyword at the start, optional
whitespace, a parenthesised group without `)` inside, then `\s*[^{]` —
which succeeds exactly when something follows the `)` and the character
right after it is not `{` (a whitespace character itself satisfies `[^{]`,
so the trailing `\s*` can always be taken empty). -/
def javaControlNoBrace (s : List Char) : Bool :=
  ["if", "for", "while", "else"].any fun k =>
    startsWithList s k.data &&
      (let afterWs := (s.drop k.length).dropWhile Char.isWhitespace
       match afterWs with
       | '(' :: t =>
         (match t.drop ((t.takeWhile (fun c => c != ')')).length) with
          | ')' :: c :: _ => c != '{'
          | _ => false)
       | _ => false)

/-- The 'Missing braces for control statement' issue of `analyzeJava`. -/
def javaBraceIssue (line : List Char) (lineNum : Nat) : Issue where
  line := lineNum
  column := 1
  severity := "warning"
  category := "style"
  title := "Missing braces for control statement"
  description := "Always use braces for control statements"
  explanation := "Using braces even for single statements prevents bugs when code is modified later."
  suggestedFix := "Add braces around the statement"
  resources := []
  codeSnippet := { original := String.mk (trimChars line),
                   suggested := String.mk (trimChars line) ++ " \x7b" }
  impact := "medium"

/-- The issues `analyzeJava` pushes for one line. -/
def javaLineIssues (line : List Char) (lineNum : Nat) : List Issue :=
  (if strIncludes (trimChars line) "System.out.println".data
   then [javaPrintlnIssue line lineNum] else [])
  ++ (if javaControlNoBrace (trimChars line) then [javaBraceIssue line lineNum] else [])

/-- codeAnalyzer.js `analyzeJava`. -/
def analyzeJava (code : String) : List Issue :=
  ((splitLines code.data).enum.map (fun p => javaLineIssues p.2 (p.1 + 1))).flatten

/-- The 'Avoid "using namespace std"' issue of `analyzeCpp`. -/
def cppNamespaceIssue (line : List Char) (lineNum : Nat) : Issue where
  line := lineNum
  column := 1
  severity := "warning"
  category := "best-practice"
  title := "Avoid \"using namespace std\""
  description := "This can cause naming conflicts in larger programs"
  explanation := "Using the entire std namespace can lead to naming conflicts. Use specific declarations instead."
  suggestedFix := "Use specific declarations like \"using std::cout;\""
  resources := [{ title := "Why \"using namespace std\" is bad practice",
                  url := "https://stackoverflow.com/questions/1452721/why-is-using-namespace-std-considered-bad-practice",
                  kind := "article" }]
  codeSnippet := { original := String.mk (trimChars line),
                   suggested := "using std::cout; using std::endl;" }
  impact := "medium"

/-- The 'Potential memory leak' issue of `analyzeCpp`. -/
def cppLeakIssue (line : List Char) (lineNum : Nat) : Issue where
  line := lineNum
  column := idxOfSub line "new ".data + 1
  severity := "error"
  category := "security"
  title := "Potential memory leak"
  description := "new without corresponding delete"
  explanation := "Every new should have a corresponding delete to prevent memory leaks."
  suggestedFix := "Add corresponding delete statement or use smart pointers"
  resources := [{ title := "C++ Smart Pointers",
                  url := "https://www.cplusplus.com/reference/memory/", kind := "documentation" }]
  codeSnippet := { original := String.mk (trimChars line),
                   suggested := "Use std::unique_ptr or std::shared_ptr" }
  impact := "high"

/-- The issues `analyzeCpp` pushes for one line; the leak check also looks
at the whole source for a textual `delete`. -/
def cppLineIssues (code : String) (line : List Char) (lineNum : Nat) : List Issue :=
  (if strIncludes (trimChars line) "using namespace std".data
   then [cppNamespaceIssue line lineNum] else [])
  ++ (if strIncludes (trimChars line) "new ".data && !strIncludes code.data "delete".data
      then [cppLeakIssue line lineNum] else [])

/-- codeAnalyzer.js `analyzeCpp`. -/
def analyzeCpp (code : String) : List Issue :=
  ((splitLines code.data).enum.map (fun p => cppLineIssues code p.2 (p.1 + 1))).flatten

/-- The 'Long line' issue of `analyzeGeneric`. -/
def genericLongLineIssue (line : List Char) (lineNum : Nat) : Issue where
  line := lineNum
  column := 121
  severity := "info"
  category := "style"
  title := "Long line"
  description := "Line is " ++ Nat.repr line.length ++ " characters long"
  explanation := "Very long lines can be hard to read and review."
  suggestedFix := "Consider breaking into multiple lines"
  resources := []
  codeSnippet := { original := String.mk (line.drop 100), suggested := "" }
  impact := "low"

/-- The 'Trailing whitespace' issue of `analyzeGeneric`. -/
def trailingWhitespaceIssue (line : List Char) (lineNum : Nat) : Issue where
  line := lineNum
  column := (trimEndChars line).length + 1
  severity := "info"
  category := "style"
  title := "Trailing whitespace"
  description := "Line has trailing whitespace characters"
  explanation := "Trailing whitespace can cause issues with version control and some editors."
  suggestedFix := "Remove trailing whitespace"
  resources := []
  codeSnippet := { original := String.mk line, suggested := String.mk (trimEndChars line) }
  impact := "low"

/-- The issues `analyzeGeneric` pushes for one line. -/
def genericLineIssues (line : List Char) (lineNum : Nat) : List Issue :=
  (if line.length > 120 then [genericLongLineIssue line lineNum] else [])
  ++ (if line ≠ trimEndChars line then [trailingWhitespaceIssue line lineNum] else [])

/-- codeAnalyzer.js `analyzeGeneric` (issue list part). -/
def analyzeGeneric (code : String) : List Issue :=
  ((splitLines code.data).enum.map (fun p => genericLineIssues p.2 (p.1 + 1))).flatten

/-! ## Analysis orchestrator (codeAnalyzer.js lines 5-85) -/

/-- The `analysis.analysis` record as initialised at codeAnalyzer.js
lines 16-21. -/
def baseAssessment : Assessment where
  strengths := []
  areasForImprovement := []
  skillLevel := "intermediate"
  nextSteps := []

/-- The strengths / improvements pushed by `analyzeJavaScript` on a
successful parse (codeAnalyzer.js lines 207-215). -/
def jsSuccessAssessment (issues : List Issue) : Assessment where
  strengths :=
    (if issues.isEmpty then ["Clean code with no major issues detected"] else [])
    ++ (if (issues.filter (fun i => i.severity == "error")).length = 0
        then ["No syntax errors"] else [])
  areasForImprovement :=
    if issues.any (fun i => i.category == "best-practice")
    then ["Follow JavaScript best practices"] else []
  skillLevel := "intermediate"
  nextSteps := []

/-- The `switch (language.toLowerCase())` dispatch (codeAnalyzer.js
lines 30-47), issue-list part.  `langLower` is the lower-cased tag. -/
def dispatchIssues (code langLower : String) (jsParse : Option (List Issue)) : List Issue :=
  if langLower = "javascript" ∨ langLower = "jsx" then analyzeJavaScript code jsParse
  else if langLower = "python" then analyzePython code
  else if langLower = "java" then analyzeJava code
  else if langLower = "cpp" ∨ langLower = "c++" then analyzeCpp code
  else analyzeGeneric code

/-- The dispatch's effect on the `analysis.analysis` record: only the
JavaScript success path and the generic fallback modify it. -/
def dispatchAssessment (langLower : String) (jsParse : Option (List Issue)) : Assessment :=
  if langLower = "javascript" ∨ langLower = "jsx" then
    match jsParse with
    | some issues => jsSuccessAssessment issues
    | none => baseAssessment
  else if langLower = "python" then baseAssessment
  else if langLower = "java" then baseAssessment
  else if langLower = "cpp" ∨ langLower = "c++" then baseAssessment
  else { baseAssessment with areasForImprovement := ["Language-specific analysis not available"] }

/-- JavaScript `language.toLowerCase()` (ASCII; the dispatch compares
against ASCII tags only). -/
def toLowerStr (s : String) : String := String.mk (s.data.map Char.toLower)

/-- The synthetic issue of the orchestrator's `catch` block
(codeAnalyzer.js lines 57-69). -/
def degradedIssue (code : String) : Issue where
  line := 1
  column := 1
  severity := "error"
  category := "syntax"
  title := "Parsing Error"
  description := "Unable to parse the code. Please check for syntax errors."
  explanation := "The code contains syntax errors that prevent proper analysis."
  suggestedFix := "Review the code for syntax errors and try again."
  resources := []
  codeSnippet := { original := String.mk (code.data.take 100), suggested := "" }
  impact := "high"

/-- The degraded `AnalysisResult` returned by the orchestrator's `catch`
block (codeAnalyzer.js lines 56-83): fixed metrics except `linesOfCode`,
which is recomputed from the input. -/
def degradedResult (code : String) : AnalysisResult where
  issues := [degradedIssue code]
  metrics :=
    { linesOfCode := countLinesOfCode code
      complexity := 1
      maintainabilityIndex := 50
      technicalDebt := 0
      overallScore := 30 }
  analysis :=
    { strengths := []
      areasForImprovement := ["Fix syntax errors"]
      skillLevel := "beginner"
      nextSteps := ["Review language syntax", "Use a code editor with syntax highlighting"] }

/-- codeAnalyzer.js `analyzeCode`.  Two sources of behaviour outside the
repository are made explicit parameters: `jsParse` is the outcome of the
external babel parse (see `analyzeJavaScript`), and `crash` models an
unexpected exception thrown anywhere inside the `try` block — when it is
set, control reaches the `catch` at line 53 and the degraded result is
returned; otherwise the normal path runs to completion. -/
def analyzeCode (code language : String) (jsParse : Option (List Issue)) (crash : Bool) :
    AnalysisResult :=
  if crash then degradedResult code
  else
    let issues := dispatchIssues code (toLowerStr language) jsParse
    { issues := issues
      metrics :=
        { linesOfCode := countLinesOfCode code
          complexity := calculateComplexity code language
          maintainabilityIndex := calculateMaintainabilityIndex code language
          technicalDebt := 0
          overallScore := calculateOverallScore issues }
      analysis := dispatchAssessment (toLowerStr language) jsParse }

/-! ## Lemmas about the scoring fold and the metric bounds -/

theorem foldl_sub_penalty (f : String → Int) (l : List Issue) (init : Int) :
    l.foldl (fun s i => s - f i.severity) init
      = init - (l.map (fun i => f i.severity)).sum := by
  induction l generalizing init with
  | nil => simp
  | cons a t ih => simp [List.foldl_cons, ih]; ring

theorem severityPenalty_nonneg (s : String) : 0 ≤ severityPenalty s := by
  unfold severityPenalty
  split_ifs <;> norm_num

theorem penaltySum_nonneg (l : List Issue) :
    0 ≤ (l.map (fun i => severityPenalty i.severity)).sum := by
  apply List.sum_nonneg
  intro x hx
  obtain ⟨i, _, rfl⟩ := List.mem_map.mp hx
  exact severityPenalty_nonneg _

theorem calculateOverallScore_le_100 (l : List Issue) : calculateOverallScore l ≤ 100 := by
  unfold calculateOverallScore
  rw [foldl_sub_penalty]
  exact max_le (by norm_num) (by linarith [penaltySum_nonneg l])

theorem calculateComplexity_ge_one (code language : String) :
    1 ≤ calculateComplexity code language := by
  unfold calculateComplexity
  exact le_min (Nat.le_add_right 1 _) (by norm_num)

theorem calculateComplexity_le_twenty (code language : String) :
    calculateComplexity code language ≤ 20 :=
  min_le_right _ _

theorem maintainability_nonneg (code language : String) :
    0 ≤ calculateMaintainabilityIndex code language :=
  le_max_left _ _

theorem maintainability_le_100 (code language : String) :
    calculateMaintainabilityIndex code language ≤ 100 :=
  max_le (by norm_num) (min_le_left _ _)

/-! ## Claim theorems -/

/-- C1: for every input pair, `analyzeCode` returns metrics with
`complexity ∈ [1,20]`, `maintainabilityIndex ∈ [0,100]` and
`overallScore ∈ [0,100]`, on both the normal and the degraded path. -/
theorem analyzeCode_metrics_in_bounds (code language : String)
    (jsParse : Option (List Issue)) (crash : Bool) :
    1 ≤ (analyzeCode code language jsParse crash).metrics.complexity ∧
    (analyzeCode code language jsParse crash).metrics.complexity ≤ 20 ∧
    0 ≤ (analyzeCode code language jsParse crash).metrics.maintainabilityIndex ∧
    (analyzeCode code language jsParse crash).metrics.maintainabilityIndex ≤ 100 ∧
    0 ≤ (analyzeCode code language jsParse crash).metrics.overallScore ∧
    (analyzeCode code language jsParse crash).metrics.overallScore ≤ 100 := by
  cases crash with
  | true =>
    refine ⟨by norm_num [analyzeCode, degradedResult], by norm_num [analyzeCode, degradedResult],
      by norm_num [analyzeCode, degradedResult], by norm_num [analyzeCode, degradedResult],
      by norm_num [analyzeCode, degradedResult], by norm_num [analyzeCode, degradedResult]⟩
  | false =>
    simp only [analyzeCode, Bool.false_eq_true, if_false]
    exact ⟨calculateComplexity_ge_one code language, calculateComplexity_le_twenty code language,
      maintainability_nonneg code language, maintainability_le_100 code language,
      le_max_left _ _, calculateOverallScore_le_100 _⟩

/-- C2: on the whole-analysis failure path, `analyzeCode` returns exactly
one synthetic `error`/`syntax` issue, `linesOfCode` computed normally,
`complexity = 1`, `maintainabilityIndex = 50` and `overallScore = 30` —
fixed defaults, not the value the scoring function would give for the
synthetic issue (which is 80). -/
theorem analyzeCode_degraded_contract (code language : String)
    (jsParse : Option (List Issue)) :
    (analyzeCode code language jsParse true).issues = [degradedIssue code] ∧
    (degradedIssue code).severity = "error" ∧
    (degradedIssue code).category = "syntax" ∧
    (analyzeCode code language jsParse true).metrics.linesOfCode = countLinesOfCode code ∧
    (analyzeCode code language jsParse true).metrics.complexity = 1 ∧
    (analyzeCode code language jsParse true).metrics.maintainabilityIndex = 50 ∧
    (analyzeCode code language jsParse true).metrics.overallScore = 30 ∧
    calculateOverallScore (analyzeCode code language jsParse true).issues = 80 ∧
    (analyzeCode code language jsParse true).metrics.overallScore ≠
      calculateOverallScore (analyzeCode code language jsParse true).issues := by
  refine ⟨rfl, rfl, rfl, rfl, rfl, rfl, rfl, ?_, ?_⟩
  · show calculateOverallScore [degradedIssue code] = 80
    rw [calculateOverallScore, foldl_sub_penalty]
    norm_num [degradedIssue, severityPenalty]
  · show (30 : Int) ≠ calculateOverallScore [degradedIssue code]
    rw [calculateOverallScore, foldl_sub_penalty]
    norm_num [degradedIssue, severityPenalty]

/-- C3: the scoring function equals `max 0 (100 - Σ penalties)` with the
20/10/5/2 penalty table encoded in `severityPenalty`, and its value always
lies in `[0, 100]`. -/
theorem calculateOverallScore_formula (issues : List Issue) :
    calculateOverallScore issues
      = max 0 (100 - (issues.map (fun i => severityPenalty i.severity)).sum) ∧
    0 ≤ calculateOverallScore issues ∧ calculateOverallScore issues ≤ 100 := by
  refine ⟨?_, le_max_left _ _, calculateOverallScore_le_100 issues⟩
  rw [calculateOverallScore, foldl_sub_penalty]

/-- C4: the overall score is invariant under permutation of the issue
list. -/
theorem calculateOverallScore_perm_invariant (l₁ l₂ : List Issue)
    (h : l₁.Perm l₂) : calculateOverallScore l₁ = calculateOverallScore l₂ := by
  unfold calculateOverallScore
  rw [foldl_sub_penalty, foldl_sub_penalty,
    List.Perm.sum_eq (List.Perm.map (fun i => severityPenalty i.severity) h)]

/-- Witness for C4: a concrete two-element issue list and its transposition
score identically. -/
theorem calculateOverallScore_perm_invariant_witness :
    ([degradedIssue "a", jsSyntaxErrorIssue "b"].Perm
       [jsSyntaxErrorIssue "b", degradedIssue "a"]) ∧
    calculateOverallScore [degradedIssue "a", jsSyntaxErrorIssue "b"]
      = calculateOverallScore [jsSyntaxErrorIssue "b", degradedIssue "a"] :=
  ⟨List.Perm.swap _ _ _,
   calculateOverallScore_perm_invariant _ _ (List.Perm.swap _ _ _)⟩

/-- C5 (bug evaluation): on the input `"a && b"` the claimed formula gives
`min 20 (1 + 1) = 2`, but the code returns 8: the pattern built for the
`&&` entry never matches a space-surrounded `&&` (no word boundary next to
a space), while the pattern built for the `||` entry contributes one empty
match per position, here 7. -/
theorem calculateComplexity_operator_tokens_bug :
    calculateComplexity "a && b" "javascript" = 8 ∧
    countAmpOcc "a && b" = 0 ∧
    countPipeMatches "a && b" = 7 := by
  decide

/-- C6 (bug evaluation): the indentation branch of `analyzePython` is dead
code — whenever a line starts with a space, `line.indexOf(' ')` is 0 and
`0 % 4 !== 0` is false — so a one-space-indented line produces no issue at
all. -/
theorem analyzePython_indent_check_dead :
    (∀ line : List Char, pythonIndentCondition line = false) ∧
    analyzePython " x" = [] := by
  constructor
  · intro line
    cases line with
    | nil => rfl
    | cons c rest =>
      by_cases hc : c = ' '
      · subst hc
        simp [pythonIndentCondition, idxOfSub, startsWithList]
      · simp [pythonIndentCondition, hc]
  · decide

/-- C7 (bug evaluation): on the 5-line `if` input of spec Scenario 2 the
code computes complexity 20 (the `||` pattern contributes `length + 1 = 15`
empty matches, so the cap is hit), hence a maintainability index of
`100 - 40 - 0.5 = 59.5`, not the claimed 6 and 87.5. -/
theorem scenario2_metrics_divergence :
    calculateComplexity "if\nif\nif\nif\nif" "javascript" = 20 ∧
    countLinesOfCode "if\nif\nif\nif\nif" = 5 ∧
    calculateMaintainabilityIndex "if\nif\nif\nif\nif" "javascript" = 119 / 2 := by
  refine ⟨by decide, by decide, ?_⟩
  have h1 : calculateComplexity "if\nif\nif\nif\nif" "javascript" = 20 := by decide
  have h2 : countLinesOfCode "if\nif\nif\nif\nif" = 5 := by decide
  simp only [calculateMaintainabilityIndex, h1, h2]
  norm_num [min_def, max_def]

/-- Number of issues of a list carrying the given severity string. -/
def severityCount (sev : String) (issues : List Issue) : Nat :=
  List.countP (fun i => i.severity == sev) issues

theorem penaltySum_eq_counts (l : List Issue) :
    (l.map (fun i => severityPenalty i.severity)).sum
      = 20 * (severityCount "error" l : Int) + 10 * (severityCount "warning" l : Int)
        + 5 * (severityCount "info" l : Int) + 2 * (severityCount "suggestion" l : Int) := by
  induction l with
  | nil => simp [severityCount]
  | cons a t ih =>
    simp only [List.map_cons, List.sum_cons, severityCount, List.countP_cons] at *
    rw [ih]
    by_cases h1 : a.severity = "error"
    · simp only [severityPenalty, h1, beq_iff_eq]
      norm_num
      push_cast
      ring
    · by_cases h2 : a.severity = "warning"
      · simp only [severityPenalty, h1, h2, beq_iff_eq]
        norm_num
        push_cast
        ring
      · by_cases h3 : a.severity = "info"
        · simp only [severityPenalty, h1, h2, h3, beq_iff_eq]
          norm_num
          push_cast
          ring
        · by_cases h4 : a.severity = "suggestion"
          · simp only [severityPenalty, h1, h2, h3, h4, beq_iff_eq]
            norm_num
            push_cast
            ring
          · simp only [severityPenalty, h1, h2, h3, h4, beq_iff_eq]
            norm_num

theorem reviewPenaltySum_eq_counts (l : List Issue) :
    (l.map (fun i => CodeReview.severityPenalty i.severity)).sum
      = 15 * (severityCount "error" l : Int) + 10 * (severityCount "warning" l : Int)
        + 5 * (severityCount "info" l : Int) + 2 * (severityCount "suggestion" l : Int) := by
  induction l with
  | nil => simp [severityCount]
  | cons a t ih =>
    simp only [List.map_cons, List.sum_cons, severityCount, List.countP_cons] at *
    rw [ih]
    by_cases h1 : a.severity = "error"
    · simp only [CodeReview.severityPenalty, h1, beq_iff_eq]
      norm_num
      push_cast
      ring
    · by_cases h2 : a.severity = "warning"
      · simp only [CodeReview.severityPenalty, h1, h2, beq_iff_eq]
        norm_num
        push_cast
        ring
      · by_cases h3 : a.severity = "info"
        · simp only [CodeReview.severityPenalty, h1, h2, h3, beq_iff_eq]
          norm_num
          push_cast
          ring
        · by_cases h4 : a.severity = "suggestion"
          · simp only [CodeReview.severityPenalty, h1, h2, h3, h4, beq_iff_eq]
            norm_num
            push_cast
            ring
          · simp only [CodeReview.severityPenalty, h1, h2, h3, h4, beq_iff_eq]
            norm_num

/-- C8: the persisted record's self-recomputation equals
`max 0 (100 - 15·#error - 10·#warning - 5·#info - 2·#suggestion)` on every
issue list, its unclamped penalty total is exactly 5 points per
error-severity issue below the orchestrator's, and on lists without
error-severity issues the two scoring functions agree exactly. -/
theorem review_score_relation (issues : List Issue) :
    CodeReview.calculateOverallScore issues
      = max 0 (100 - (15 * (severityCount "error" issues : Int)
          + 10 * (severityCount "warning" issues : Int)
          + 5 * (severityCount "info" issues : Int)
          + 2 * (severityCount "suggestion" issues : Int))) ∧
    (issues.map (fun i => severityPenalty i.severity)).sum
        - (issues.map (fun i => CodeReview.severityPenalty i.severity)).sum
      = 5 * (severityCount "error" issues : Int) ∧
    (severityCount "error" issues = 0 →
      CodeReview.calculateOverallScore issues = calculateOverallScore issues) := by
  refine ⟨?_, ?_, ?_⟩
  · unfold CodeReview.calculateOverallScore
    by_cases h : issues.length = 0
    · have he : issues = [] := List.length_eq_zero.mp h
      subst he
      simp [severityCount]
    · rw [if_neg h, foldl_sub_penalty, reviewPenaltySum_eq_counts]
  · rw [penaltySum_eq_counts, reviewPenaltySum_eq_counts]
    ring
  · intro h
    unfold CodeReview.calculateOverallScore calculateOverallScore
    by_cases hl : issues.length = 0
    · have he : issues = [] := List.length_eq_zero.mp hl
      subst he
      simp
    · rw [if_neg hl, foldl_sub_penalty, foldl_sub_penalty,
        reviewPenaltySum_eq_counts, penaltySum_eq_counts, h]
      norm_num

/-- Witness for C8: on a concrete one-warning issue list (no error
severity) the two scoring functions agree. -/
theorem review_score_relation_witness :
    severityCount "error" [cppNamespaceIssue [] 1] = 0 ∧
    CodeReview.calculateOverallScore [cppNamespaceIssue [] 1]
      = calculateOverallScore [cppNamespaceIssue [] 1] :=
  ⟨by decide, (review_score_relation [cppNamespaceIssue [] 1]).2.2 (by decide)⟩

theorem dispatch_js_fail (code langLower : String)
    (h : langLower = "javascript" ∨ langLower = "jsx") :
    dispatchIssues code langLower none = [jsSyntaxErrorIssue code] := by
  unfold dispatchIssues
  rw [if_pos h]
  rfl

/-- C9: when the JavaScript parser fails and the orchestrator itself does
not throw, the returned issue list is exactly the single synthetic
`error`/`syntax` issue. -/
theorem js_parse_failure_single_issue (code language : String)
    (h : toLowerStr language = "javascript" ∨ toLowerStr language = "jsx") :
    (analyzeCode code language none false).issues = [jsSyntaxErrorIssue code] ∧
    (jsSyntaxErrorIssue code).severity = "error" ∧
    (jsSyntaxErrorIssue code).category = "syntax" := by
  refine ⟨?_, rfl, rfl⟩
  show dispatchIssues code (toLowerStr language) none = [jsSyntaxErrorIssue code]
  exact dispatch_js_fail _ _ h

/-- Witness for C9: a concrete malformed JavaScript input. -/
theorem js_parse_failure_single_issue_witness :
    (toLowerStr "javascript" = "javascript" ∨ toLowerStr "javascript" = "jsx") ∧
    ((analyzeCode "function foo() \x7b" "javascript" none false).issues
        = [jsSyntaxErrorIssue "function foo() \x7b"] ∧
      (jsSyntaxErrorIssue "function foo() \x7b").severity = "error" ∧
      (jsSyntaxErrorIssue "function foo() \x7b").category = "syntax") :=
  ⟨Or.inl (by decide),
   js_parse_failure_single_issue "function foo() \x7b" "javascript" (Or.inl (by decide))⟩

/-- C10: on the JavaScript parse-failure path the metrics are the normal
ones — the metric primitives applied to the input — and the overall score
is the normal scoring of the single synthetic issue, exactly 80, not the
degraded 30. -/
theorem js_parse_failure_normal_metrics (code language : String)
    (h : toLowerStr language = "javascript" ∨ toLowerStr language = "jsx") :
    (analyzeCode code language none false).metrics.linesOfCode = countLinesOfCode code ∧
    (analyzeCode code language none false).metrics.complexity
      = calculateComplexity code language ∧
    (analyzeCode code language none false).metrics.maintainabilityIndex
      = calculateMaintainabilityIndex code language ∧
    (analyzeCode code language none false).metrics.overallScore
      = calculateOverallScore [jsSyntaxErrorIssue code] ∧
    (analyzeCode code language none false).metrics.overallScore = 80 ∧
    (degradedResult code).metrics.overallScore = 30 := by
  refine ⟨rfl, rfl, rfl, ?_, ?_, rfl⟩
  · show calculateOverallScore (dispatchIssues code (toLowerStr language) none)
      = calculateOverallScore [jsSyntaxErrorIssue code]
    rw [dispatch_js_fail _ _ h]
  · show calculateOverallScore (dispatchIssues code (toLowerStr language) none) = 80
    rw [dispatch_js_fail _ _ h, calculateOverallScore, foldl_sub_penalty]
    norm_num [jsSyntaxErrorIssue, severityPenalty]

/-- Witness for C10: the concrete malformed input again; the score is 80. -/
theorem js_parse_failure_normal_metrics_witness :
    (toLowerStr "jsx" = "javascript" ∨ toLowerStr "jsx" = "jsx") ∧
    (analyzeCode "var x = (" "jsx" none false).metrics.overallScore = 80 :=
  ⟨Or.inr (by decide),
   (js_parse_failure_normal_metrics "var x = (" "jsx" (Or.inr (by decide))).2.2.2.2.1⟩
